import Mathlib

/-!
Verification of the AstroGrannyBot natal-chart pipeline (src/telegram_bot.py)
against its natural-language specification.

The Python source is shallowly embedded: pure helpers become Lean functions,
the per-user `context.user_data` dictionary becomes an explicit `Session`
record threaded through the handlers, and the external collaborators
(geocoding, timezone lookup, the Swiss-Ephemeris engine and the sqlite
description store) become a record of oracle functions `Ephem` passed to the
embedded code.  Python `ValueError` exceptions are modelled with
`Except String`; a handler that mutates state before raising keeps the
mutations, exactly as a Python `dict` does.
-/

/-! ## Character and digit helpers (regex character classes, `int()` digits) -/

/-- The character class `[lo-hi]` of a regular expression: `lo ≤ c ≤ hi`
as code points (all characters involved here are ASCII). -/
def charBetween (c lo hi : Char) : Bool :=
  lo.toNat ≤ c.toNat && c.toNat ≤ hi.toNat

/-- Numeric value of a decimal digit character, as `int()` reads it. -/
def dval (c : Char) : Nat := c.toNat - 48

/-! ## Error and prompt messages of the bot (verbatim from the source) -/

def placeNotFoundMsg : String :=
  "Внучка, к сожалению, бабуля не нашла такого города на карте. Введи, пожалуйста, существующий город"

def timezoneUnknownMsg : String :=
  "Невозможно определить часовой пояс для указанных координат."

def futureYearMsg : String :=
  "Внучка, дата некорректна. Такой год еще не наступил"

def dateFormatMsg : String :=
  "Внучка, дата некорректна. Пожалуйста, введи ее в формате ДД.ММ.ГГГГ"

def timeFormatMsg : String :=
  "Внучка, время некорректно. Пожалуйста, введи его в формате ЧЧ:ММ (например, 14:30)"

def askTimeMsg : String := "Введи время рождения в формате ЧЧ:ММ:"

def askPlaceMsg : String := "Введи место рождения (город):"

def chartReadyMsg : String :=
  "Молодец! Бабуля составила твою натальную карту. Теперь выбери, о каком из положений тебе хотелось бы узнать:"

def newChartPromptMsg : String := "Введи дату своего рождения в формате ДД.ММ.ГГГГ:"

def descriptionNotFoundMsg : String := "Описание не найдено"

/-! ## The date validator (`validate_date`, lines 106-125)

`datetime.strptime(date_str, "%d.%m.%Y")` is CPython's `_strptime`: the format
compiles to the regex `(3[01]|[12]\d|0[1-9]|[1-9])\.(1[0-2]|0[1-9]|[1-9])\.(\d\d\d\d)`
which must consume the whole string, after which the matched day is checked
against the month length when the `datetime` is constructed.  The day and
month fields therefore accept one- or two-digit values (no zero padding
required), the year exactly four digits with `datetime` requiring year ≥ 1.
The embedding splits on the literal dots (the day/month/year alternations
never span a dot, so the regex is equivalent to a dot-split with per-field
checks) and validates each field. -/

structure PyDate where
  year : Nat
  month : Nat
  day : Nat
deriving DecidableEq

/-- Python `str.split('.')` on the character list. -/
def splitDots : List Char → List (List Char)
  | [] => [[]]
  | '.' :: rest => [] :: splitDots rest
  | c :: rest =>
    match splitDots rest with
    | f :: r => (c :: f) :: r
    | [] => [[c]]

/-- A one- or two-digit numeric field, as matched for `%d` / `%m`. -/
def fieldVal12 : List Char → Option Nat
  | [c] => if charBetween c '0' '9' then some (dval c) else none
  | [c1, c2] =>
    if charBetween c1 '0' '9' && charBetween c2 '0' '9' then
      some (10 * dval c1 + dval c2)
    else none
  | _ => none

/-- The exactly-four-digit year field matched for `%Y`. -/
def fieldVal4 : List Char → Option Nat
  | [c1, c2, c3, c4] =>
    if charBetween c1 '0' '9' && charBetween c2 '0' '9' &&
        charBetween c3 '0' '9' && charBetween c4 '0' '9' then
      some (1000 * dval c1 + 100 * dval c2 + 10 * dval c3 + dval c4)
    else none
  | _ => none

def isLeapYear (y : Nat) : Bool :=
  y % 4 == 0 && (y % 100 != 0 || y % 400 == 0)

def daysInMonth (y m : Nat) : Nat :=
  if m = 2 then (if isLeapYear y then 29 else 28)
  else if m = 4 || m = 6 || m = 9 || m = 11 then 30
  else 31

/-- `datetime.strptime(s, "%d.%m.%Y")` as an `Option`: `none` is the
`ValueError` of a failed parse or an invalid calendar date. -/
def pyStrptimeDMY (s : String) : Option PyDate :=
  match splitDots s.data with
  | [df, mf, yf] =>
    match fieldVal12 df, fieldVal12 mf, fieldVal4 yf with
    | some d, some m, some y =>
      if 1 ≤ d && d ≤ 31 && 1 ≤ m && m ≤ 12 && 1 ≤ y && d ≤ daysInMonth y m then
        some ⟨y, m, d⟩
      else none
    | _, _, _ => none
  | _ => none

/-- Lines 106-125.  The `ValueError` raised for a year beyond 2024 is raised
inside the `try` block, so the function's own `except ValueError` catches it
and re-raises the date-format message: every failure of `validate_date`,
including the future-year one, surfaces as `dateFormatMsg`. -/
def validate_date (s : String) : Except String PyDate :=
  match pyStrptimeDMY s with
  | none => .error dateFormatMsg
  | some d => if d.year > 2024 then .error dateFormatMsg else .ok d

/-! ## The time validator (`validate_time`, lines 128-145)

`re.match(r"^[0-2][0-9]:[0-5][0-9]$", time_str)`: in Python `$` also matches
just before a single newline at the very end of the string, and
`int("MM\n")` strips the trailing whitespace, so `"HH:MM\n"` is accepted
exactly like `"HH:MM"`.  A successful regex match is followed by the numeric
range re-check `0 <= hours <= 23 and 0 <= minutes <= 59`. -/

def vtCore (a b d e : Char) : Except String (Nat × Nat) :=
  if charBetween a '0' '2' && charBetween b '0' '9' &&
      charBetween d '0' '5' && charBetween e '0' '9' then
    if 10 * dval a + dval b ≤ 23 && 10 * dval d + dval e ≤ 59 then
      .ok (10 * dval a + dval b, 10 * dval d + dval e)
    else .error timeFormatMsg
  else .error timeFormatMsg

def validate_time (s : String) : Except String (Nat × Nat) :=
  match s.data with
  | [a, b, ':', d, e] => vtCore a b d e
  | [a, b, ':', d, e, '\n'] => vtCore a b d e
  | _ => .error timeFormatMsg

/-! ## Degree-to-sign mapping (`get_zodiac_sign`, lines 60-74) -/

def zodiacSigns : List String :=
  ["Овен", "Телец", "Близнецы", "Рак", "Лев", "Дева",
   "Весы", "Скорпион", "Стрелец", "Козерог", "Водолей", "Рыбы"]

/-- Python list indexing `l[i]`: a negative index counts from the end, an
index that is still out of range raises `IndexError`, modelled as `none`. -/
def pyListGet (l : List String) (i : Int) : Option String :=
  let j : Int := if i < 0 then i + l.length else i
  if 0 ≤ j then l[j.toNat]? else none

/-- Lines 60-74: `signs[int(degree // 30)]`.  Float floor-division followed by
`int()` of the (integral) float is the mathematical floor of `degree / 30`;
degrees are modelled as rationals. -/
def get_zodiac_sign (degree : ℚ) : Option String :=
  pyListGet zodiacSigns ⌊degree / 30⌋

/-! ## Collaborator oracles

The geocoder, the timezone finder, the Swiss-Ephemeris engine and the sqlite
description store are external collaborators; an `Ephem` record fixes one
behavior of each for a run.  `utcoffsetMinutes` is the UTC offset (in
minutes, east positive) that `pytz` assigns to the named zone for the
localized timestamp. -/

structure Ephem where
  calc_ut : ℚ → Nat → ℚ
  houses : ℚ → ℚ → ℚ → ℚ
  timezone_at : ℚ → ℚ → Option String
  utcoffsetMinutes : String → Int
  geocode : String → Option (ℚ × ℚ)
  dbLookup : String → String → Option String

/-- Lines 21-39, `get_coordinates`: one geocoder call; an empty result raises
the place-not-found `ValueError`. -/
def get_coordinates (E : Ephem) (city_name : String) : Except String (ℚ × ℚ) :=
  match E.geocode city_name with
  | some loc => .ok loc
  | none => .error placeNotFoundMsg

/-- Lines 42-57, `get_timezone`: returns `tf.timezone_at(...)` unchanged.
Despite its docstring promising a `ValueError` when no timezone is found, the
function simply hands the collaborator's `None` back to its caller. -/
def get_timezone (E : Ephem) (latitude longitude : ℚ) : Option String :=
  E.timezone_at latitude longitude

/-- Lines 77-103, `get_planet_description`: a description-store lookup whose
missing entry degrades to a fixed fallback string. -/
def get_planet_description (E : Ephem) (planet zodiac_sign : String) : String :=
  (E.dbLookup planet zodiac_sign).getD descriptionNotFoundMsg

/-! ## Julian day

Modelled from the spec: the ephemeris collaborator's civil-date-to-julian-day
conversion `swe.julday` (a "continuous day-count time representation") is the
standard astronomical day count - the proleptic-Gregorian day number of the
civil date plus the fractional hours, normalised so that 1970-01-01 00:00
corresponds to 2440587.5. -/

/-- Modelled from the spec: days elapsed from 1970-01-01 to the Gregorian
civil date y-m-d (negative before), by the standard era decomposition; `/`
on `Int` rounds toward negative infinity for the positive divisors used
here. -/
def daysFromCivil (y : Int) (m d : Nat) : Int :=
  let yy : Int := if m ≤ 2 then y - 1 else y
  let era : Int := yy / 400
  let yoe : Int := yy - era * 400
  let mp : Int := ((m : Int) + 9) % 12
  let doy : Int := (153 * mp + 2) / 5 + d - 1
  let doe : Int := yoe * 365 + yoe / 4 - yoe / 100 + doy
  era * 146097 + doe - 719468

/-- Modelled from the spec: `swe.julday(y, m, d, hourFrac)`. -/
def julday (y : Int) (m d : Nat) (hourFrac : ℚ) : ℚ :=
  (daysFromCivil y m d : ℚ) + 4881175 / 2 + hourFrac / 24

/-- The ten fixed bodies, in the fixed enumeration order of the source;
the loop index doubles as the ephemeris body index. -/
def planetNames : List String :=
  ["Солнце", "Луна", "Меркурий", "Венера", "Марс",
   "Юпитер", "Сатурн", "Уран", "Нептун", "Плутон"]

structure Position where
  degree : ℚ
  zodiac_sign : String
  description : String
deriving DecidableEq

/-! ## Chart calculation (`calculate_planet_positions`, lines 148-186)

The function formats the civil components into a string and re-parses it with
`strptime("%Y-%m-%d %H:%M:%S")` - an identity on the components - then
computes one julian day from the civil date/time directly, with NO timezone
conversion, sets the topocentric context, and queries `swe.calc_ut` once per
body.  Besides the positions the embedding returns the list of
`(julian_day, body_index)` argument pairs of the `calc_ut` calls made, in
order. -/

def calculate_planet_positions (E : Ephem) (year month day hour minute : Nat)
    (latitude longitude : ℚ) : List (String × Position) × List (ℚ × Nat) :=
  let julian_day := julday (year : Int) month day ((hour : ℚ) + (minute : ℚ) / 60)
  let results := planetNames.enum.map fun p =>
    let degree := E.calc_ut julian_day p.1
    let sign := (get_zodiac_sign degree).getD ""
    (((p.2, ⟨degree, sign, get_planet_description E p.2 sign⟩) : String × Position),
      (julian_day, p.1))
  (results.map Prod.fst, results.map Prod.snd)

/-! ## Ascendant calculation (`calculate_ascendant`, lines 189-224)

Resolves the timezone (raising the timezone-unknown `ValueError` on a null
result), localizes the civil timestamp with `pytz`, converts it to UTC and
computes the julian day of the UTC components, then calls `swe.houses` once
with the Placidus system.  The `pytz` localize/astimezone pair (external
collaborators) shifts the timestamp by the zone's UTC offset; `julday` is
affine in time with slope 1/24 per hour, so the julian day of the shifted
components is the civil julian day minus offset-in-minutes / 1440.  The
embedding also returns the `(julian_day, latitude, longitude)` arguments of
the single `swe.houses` call. -/

def calculate_ascendant (E : Ephem) (year month day hour minute : Nat)
    (latitude longitude : ℚ) : Except String ((ℚ × String) × (ℚ × ℚ × ℚ)) :=
  match get_timezone E latitude longitude with
  | none => .error timezoneUnknownMsg
  | some tzName =>
    let julian_day := julday (year : Int) month day ((hour : ℚ) + (minute : ℚ) / 60) -
      (E.utcoffsetMinutes tzName : ℚ) / 1440
    let ascendant_degree := E.houses julian_day latitude longitude
    let ascendant_sign := (get_zodiac_sign ascendant_degree).getD ""
    .ok ((ascendant_degree, ascendant_sign), (julian_day, latitude, longitude))

/-! ## The per-user session and the conversation handlers -/

structure Session where
  birth_date : Option PyDate
  birth_time : Option (Nat × Nat)
  birth_place : Option (ℚ × ℚ)
  nat_chart : Option (List (String × Position))
  ascendant : Option Position

def emptySession : Session := ⟨none, none, none, none, none⟩

/-- Lines 253-316, `handle_message`: the three collection steps keyed on which
`user_data` entries exist.  The whole body runs inside `try/except
ValueError`; a mutation made before a raise survives (the `user_data` dict is
mutated in place), which the embedding reproduces by returning the state as
mutated up to the failure point.  The second component is the text replied to
the user (`None` when no branch matches the message). -/
def handle_message (E : Ephem) (s : Session) (text : String) : Session × Option String :=
  match s.birth_date with
  | none =>
    match validate_date text with
    | .error e => (s, some e)
    | .ok d => ({ s with birth_date := some d }, some askTimeMsg)
  | some bd =>
    match s.birth_time with
    | none =>
      match validate_time text with
      | .error e => (s, some e)
      | .ok hm => ({ s with birth_time := some hm }, some askPlaceMsg)
    | some hm =>
      match s.birth_place with
      | none =>
        match get_coordinates E text with
        | .error e => (s, some e)
        | .ok loc =>
          let s1 := { s with birth_place := some loc }
          let planets := calculate_planet_positions E bd.year bd.month bd.day
            hm.1 hm.2 loc.1 loc.2
          match calculate_ascendant E bd.year bd.month bd.day hm.1 hm.2 loc.1 loc.2 with
          | .error e => (s1, some e)
          | .ok asc =>
            ({ s1 with
                nat_chart := some planets.1,
                ascendant := some ⟨asc.1.1, asc.1.2,
                  get_planet_description E "Асцендент" asc.1.2⟩ },
              some chartReadyMsg)
      | some _ => (s, none)

/-- What `button_callback` sends back: the reset prompt, or the stored data of
one position echoed to the user. -/
inductive ChartReply where
  | newChartPrompt : ChartReply
  | position : String → Position → ChartReply
deriving DecidableEq

/-- Lines 346-370, `button_callback`: `new_chart` clears the session and
prompts for a new date; any other label is answered purely from the stored
`user_data` - no ephemeris oracle is even in scope, so no recomputation can
occur.  A missing key raises `KeyError` (no reply, state untouched),
modelled as `none`. -/
def button_callback (s : Session) (data : String) : Session × Option ChartReply :=
  if data = "new_chart" then (emptySession, some .newChartPrompt)
  else if data = "Асцендент" then
    match s.ascendant with
    | some p => (s, some (.position "Асцендент" p))
    | none => (s, none)
  else
    match s.nat_chart with
    | some chart =>
      match chart.lookup data with
      | some p => (s, some (.position data p))
      | none => (s, none)
    | none => (s, none)

/-- The session states reachable by the bot: the fresh session, then any
sequence of text messages and button presses, under arbitrary collaborator
behavior at every step. -/
inductive Reachable : Session → Prop
  | init : Reachable emptySession
  | msg (s : Session) (E : Ephem) (text : String) :
      Reachable s → Reachable (handle_message E s text).1
  | btn (s : Session) (data : String) :
      Reachable s → Reachable (button_callback s data).1

/-! # Theorems -/

/-! ## C4 / C5: the date validator -/

/-- C4, counterexample: the claim says `"1.1.2020"` (no leading zeros) fails
with the invalid-format error, but `strptime`'s `%d` and `%m` accept
one-digit fields, so `validate_date` parses it as 1 January 2020. -/
theorem validate_date_unpadded_accepted :
    validate_date "1.1.2020" = .ok ⟨2020, 1, 1⟩ := rfl

/-- C4, amended: `validate_date` accepts `DD.MM.YYYY` with one- or two-digit
day and month fields (Python `strptime` leniency): the leap day
`"29.02.2024"` succeeds, the non-existent `"31.02.2024"` fails with the
invalid-format error, and the unpadded `"1.1.2020"` succeeds, parsing as
1 January 2020. -/
theorem validate_date_amended :
    validate_date "29.02.2024" = .ok ⟨2024, 2, 29⟩ ∧
    validate_date "31.02.2024" = .error dateFormatMsg ∧
    validate_date "1.1.2020" = .ok ⟨2020, 1, 1⟩ :=
  ⟨rfl, rfl, rfl⟩

/-- C5: for `"01.01.2025"` the code raises the future-year `ValueError`
inside its own `try` block, whose `except ValueError` catches it and replaces
it with the invalid-format message: the caller receives `dateFormatMsg`, not
the distinct future-year message the claim (and the code's intent, which
constructs `futureYearMsg`) requires. -/
theorem futureYear_error_masked :
    validate_date "01.01.2025" = .error dateFormatMsg ∧
    dateFormatMsg ≠ futureYearMsg :=
  ⟨rfl, by decide⟩

/-! ## C6: the time validator -/

/-- The time strings the claim describes, amended with the trailing-newline
acceptance: the character shape `HH:MM` (all four positions decimal digits),
optionally followed by one final newline, with hour value at most 23 and
minute value at most 59, returning exactly those two values. -/
def SpecTimeOk (s : String) (h m : Nat) : Prop :=
  ∃ a b d e : Char,
    (s.data = [a, b, ':', d, e] ∨ s.data = [a, b, ':', d, e, '\n']) ∧
    charBetween a '0' '9' = true ∧ charBetween b '0' '9' = true ∧
    charBetween d '0' '9' = true ∧ charBetween e '0' '9' = true ∧
    h = 10 * dval a + dval b ∧ m = 10 * dval d + dval e ∧ h ≤ 23 ∧ m ≤ 59

/-- The regex prefix classes `[0-2]`/`[0-5]` plus the numeric range re-check
are together equivalent to plain digits plus the same ranges. -/
lemma vtCore_ok_iff (a b d e : Char) (h m : Nat) :
    vtCore a b d e = .ok (h, m) ↔
      (charBetween a '0' '9' = true ∧ charBetween b '0' '9' = true ∧
       charBetween d '0' '9' = true ∧ charBetween e '0' '9' = true ∧
       h = 10 * dval a + dval b ∧ m = 10 * dval d + dval e ∧ h ≤ 23 ∧ m ≤ 59) := by
  have c0 : ('0').toNat = 48 := rfl
  have c2 : ('2').toNat = 50 := rfl
  have c5 : ('5').toNat = 53 := rfl
  have c9 : ('9').toNat = 57 := rfl
  unfold vtCore charBetween dval
  constructor
  · intro hk
    split_ifs at hk with g1 g2
    · simp only [Except.ok.injEq, Prod.mk.injEq] at hk
      simp only [Bool.and_eq_true, decide_eq_true_eq] at g1 g2
      rw [c0, c2, c5, c9] at g1
      simp only [Bool.and_eq_true, decide_eq_true_eq]
      rw [c0, c9]
      obtain ⟨⟨⟨ha, hb⟩, hd⟩, he⟩ := g1
      exact ⟨by omega, by omega, by omega, by omega, hk.1.symm, hk.2.symm,
        by omega, by omega⟩
  · rintro ⟨ha, hb, hd, he, hh, hm, h23, m59⟩
    simp only [Bool.and_eq_true, decide_eq_true_eq] at ha hb hd he
    rw [c0, c9] at ha hb hd he
    rw [if_pos, if_pos]
    · exact congrArg Except.ok (by rw [hh, hm])
    · simp only [Bool.and_eq_true, decide_eq_true_eq]
      omega
    · simp only [Bool.and_eq_true, decide_eq_true_eq]
      rw [c0, c2, c5, c9]
      omega

/-- The characterization of `validate_time`, shared by C6's theorem. -/
lemma validate_time_ok_iff (s : String) (h m : Nat) :
    validate_time s = .ok (h, m) ↔ SpecTimeOk s h m := by
  constructor
  · intro hk
    unfold validate_time at hk
    split at hk
    · next a b d e heq =>
      exact ⟨a, b, d, e, Or.inl heq, by
        have := (vtCore_ok_iff a b d e h m).mp hk
        tauto⟩
    · next a b d e heq =>
      exact ⟨a, b, d, e, Or.inr heq, by
        have := (vtCore_ok_iff a b d e h m).mp hk
        tauto⟩
    · next hne => exact absurd hk (by simp)
  · rintro ⟨a, b, d, e, hs | hs, ha, hb, hd, he, hh, hm, h23, m59⟩ <;>
    · unfold validate_time
      rw [hs]
      exact (vtCore_ok_iff a b d e h m).mpr ⟨ha, hb, hd, he, hh, hm, h23, m59⟩

/-- C6, counterexample: `"14:30\n"` is not of the five-character form `HH:MM`
the claim allows, yet `validate_time` accepts it: Python's `$` matches just
before a final newline and `int()` ignores the trailing whitespace. -/
theorem validate_time_newline_accepted :
    validate_time "14:30\n" = .ok (14, 30) ∧ "14:30\n".data.length ≠ 5 :=
  ⟨rfl, by decide⟩

/-- C6, amended: `validate_time` succeeds exactly on `HH:MM` - two-digit
components with hour 0-23 and minute 0-59 - or such a string followed by one
trailing newline, returning the (hour, minute) pair; `"14:30"` returns
(14, 30) while `"24:00"` and `"9:30"` both fail with the invalid-time
error. -/
theorem validate_time_amended :
    (∀ (s : String) (h m : Nat), validate_time s = .ok (h, m) ↔ SpecTimeOk s h m) ∧
    validate_time "14:30" = .ok (14, 30) ∧
    validate_time "24:00" = .error timeFormatMsg ∧
    validate_time "9:30" = .error timeFormatMsg :=
  ⟨validate_time_ok_iff, rfl, rfl, rfl⟩

/-! ## C7 / C10: the degree-to-sign mapping -/

/-- C7: for every degree in [0, 360) the mapping returns the zodiac-list
entry at index floor(degree / 30), that index stays below 12 (so the result
is one of the twelve fixed categories), the index is monotone in the degree,
0 maps to the first sign and 359.999 to the last. -/
theorem get_zodiac_sign_spec :
    (∀ d : ℚ, 0 ≤ d → d < 360 →
      get_zodiac_sign d = zodiacSigns[(⌊d / 30⌋).toNat]? ∧
      (⌊d / 30⌋).toNat < 12 ∧ (get_zodiac_sign d).isSome = true) ∧
    (∀ d e : ℚ, 0 ≤ d → d ≤ e → e < 360 → ⌊d / 30⌋ ≤ ⌊e / 30⌋) ∧
    get_zodiac_sign 0 = some "Овен" ∧
    get_zodiac_sign (359999 / 1000) = some "Рыбы" := by
  refine ⟨?_, ?_, ?_, ?_⟩
  · intro d h0 h360
    have hf0 : (0 : Int) ≤ ⌊d / 30⌋ := Int.floor_nonneg.mpr (by positivity)
    have hf12 : ⌊d / 30⌋ < 12 := Int.floor_lt.mpr (by linarith)
    have hget : get_zodiac_sign d = zodiacSigns[(⌊d / 30⌋).toNat]? := by
      unfold get_zodiac_sign pyListGet
      simp only [if_neg (not_lt.mpr hf0), if_pos hf0]
    refine ⟨hget, by omega, ?_⟩
    rw [hget]
    have : (⌊d / 30⌋).toNat ≤ 11 := by omega
    interval_cases h : (⌊d / 30⌋).toNat <;> rfl
  · intro d e _ hde _
    exact Int.floor_le_floor (by linarith)
  · unfold get_zodiac_sign pyListGet
    norm_num
    rfl
  · unfold get_zodiac_sign pyListGet
    norm_num
    rfl

/-- C10: outside the documented domain the mapping is partial exactly as
Python list indexing makes it: any degree of 360 or more indexes past the end
and raises `IndexError` (modelled `none`), while any degree in [-360, 0)
silently wraps through negative indexing and returns a sign; in particular
degree -1 yields the last sign. -/
theorem get_zodiac_sign_partiality :
    (∀ d : ℚ, 360 ≤ d → get_zodiac_sign d = none) ∧
    (∀ d : ℚ, -360 ≤ d → d < 0 → (get_zodiac_sign d).isSome = true) ∧
    get_zodiac_sign (-1) = some "Рыбы" := by
  refine ⟨?_, ?_, ?_⟩
  · intro d h360
    have hf : (12 : Int) ≤ ⌊d / 30⌋ := by
      rw [Int.le_floor]
      push_cast
      linarith
    unfold get_zodiac_sign pyListGet
    simp only [if_neg (not_lt.mpr (by omega : (0 : Int) ≤ ⌊d / 30⌋)),
      if_pos (by omega : (0 : Int) ≤ ⌊d / 30⌋)]
    rw [List.getElem?_eq_none]
    have : (12 : Nat) ≤ (⌊d / 30⌋).toNat := by omega
    simpa [zodiacSigns] using this
  · intro d hm360 h0
    have hlo : (-12 : Int) ≤ ⌊d / 30⌋ := by
      rw [Int.le_floor]
      push_cast
      linarith
    have hhi : ⌊d / 30⌋ < 0 := by
      rw [Int.floor_lt]
      push_cast
      linarith
    unfold get_zodiac_sign pyListGet
    rw [if_pos hhi]
    have hlen : (zodiacSigns.length : Int) = 12 := by rfl
    rw [hlen, if_pos (by omega)]
    have : (⌊d / 30⌋ + 12).toNat ≤ 11 := by omega
    interval_cases h : (⌊d / 30⌋ + 12).toNat <;> rfl
  · unfold get_zodiac_sign pyListGet
    norm_num
    exact ⟨by decide, by decide⟩

/-! ## C8: the timezone resolver -/

/-- A collaborator world whose timezone-by-coordinate lookup finds nothing. -/
def nullTimezoneWorld : Ephem :=
  ⟨fun _ _ => 0, fun _ _ _ => 0, fun _ _ => none, fun _ => 0,
   fun _ => some (0, 30), fun _ _ => none⟩

/-- C8: when the timezone lookup collaborator yields a null result,
`get_timezone` does NOT fail - it returns the null to its caller, despite its
own docstring promising a `ValueError`.  The timezone-unknown failure the
claim describes is raised only by the caller, `calculate_ascendant`, when it
receives that null. -/
theorem get_timezone_returns_null :
    get_timezone nullTimezoneWorld 0 0 = none ∧
    (calculate_ascendant nullTimezoneWorld 2000 1 1 12 0 0 0 =
      .error timezoneUnknownMsg) :=
  ⟨rfl, rfl⟩

/-! ## C9: idempotent selection in the chart-ready state -/

/-- C9: any selection other than the reset button leaves the session exactly
as it was, and repeating the same selection returns the identical reply built
from the stored data.  `button_callback` takes no ephemeris oracle at all, so
no recomputation is possible by construction. -/
theorem button_selection_idempotent (s : Session) (label : String)
    (hl : label ≠ "new_chart") :
    (button_callback s label).1 = s ∧
    button_callback ((button_callback s label).1) label = button_callback s label := by
  have h1 : (button_callback s label).1 = s := by
    unfold button_callback
    rw [if_neg hl]
    split
    · split <;> rfl
    · split
      · split <;> rfl
      · rfl
  exact ⟨h1, by rw [h1]⟩

/-- A concrete chart-ready session used to witness C9. -/
def chartReadySession : Session :=
  ⟨some ⟨1990, 6, 15⟩, some (8, 45), some (55, 37),
   some [("Солнце", ⟨80, "Близнецы", "солнечно"⟩)],
   some ⟨100, "Рак", "восходяще"⟩⟩

/-- C9 witness: selecting the Sun twice in a concrete chart-ready session. -/
theorem button_selection_idempotent_witness :
    (button_callback chartReadySession "Солнце").1 = chartReadySession ∧
    button_callback ((button_callback chartReadySession "Солнце").1) "Солнце" =
      button_callback chartReadySession "Солнце" :=
  button_selection_idempotent chartReadySession "Солнце" (by decide)

/-! ## C2: failure handling in the awaiting-place step -/

/-- A world where "Атлантида" geocodes to coordinates whose timezone lookup
finds nothing: the place resolves, the downstream timezone step fails. -/
def atlantisWorld : Ephem :=
  ⟨fun _ _ => 0, fun _ _ _ => 0, fun _ _ => none, fun _ => 0,
   fun t => if t = "Атлантида" then some (0, 30) else none, fun _ _ => none⟩

/-- A session that has collected a valid date and time and awaits the place. -/
def awaitingPlaceSession : Session :=
  ⟨some ⟨1990, 6, 15⟩, some (8, 45), none, none, none⟩

/-- What that session becomes after the failing place step: the birthplace
coordinates are stored although no chart was computed. -/
def wedgedSession : Session :=
  ⟨some ⟨1990, 6, 15⟩, some (8, 45), some (0, 30), none, none⟩

/-- C2: the code stores `birth_place` (line 281) before computing the chart,
so a downstream timezone failure surfaces the timezone error while leaving
the place stored and no chart: the session state HAS changed, and - worse -
every later text message falls through all three collection branches
(date, time and place keys all exist) and is silently ignored, so the place
step can never be retried, contradicting the claim's unchanged-state,
retryable behavior. -/
theorem awaitingPlace_failure_stores_place :
    handle_message atlantisWorld awaitingPlaceSession "Атлантида" =
      (wedgedSession, some timezoneUnknownMsg) ∧
    wedgedSession.birth_place = some (0, 30) ∧
    wedgedSession ≠ awaitingPlaceSession ∧
    wedgedSession.nat_chart = none ∧
    (∀ (E : Ephem) (text : String),
      handle_message E wedgedSession text = (wedgedSession, none)) := by
  refine ⟨rfl, rfl, ?_, rfl, fun E text => rfl⟩
  intro h
  exact Option.noConfusion (congrArg Session.birth_place h)

/-! ## C3: the chart-presence invariant -/

/-- A calendar-valid birth date as the date validator guarantees it. -/
def ValidDate (d : PyDate) : Prop :=
  1 ≤ d.month ∧ d.month ≤ 12 ∧ 1 ≤ d.day ∧ d.day ≤ daysInMonth d.year d.month ∧
  1 ≤ d.year ∧ d.year ≤ 2024

lemma validate_date_valid {t : String} {d : PyDate} (h : validate_date t = .ok d) :
    ValidDate d := by
  unfold validate_date at h
  split at h
  · exact absurd h (by simp)
  · next p hp =>
    split at h
    · exact absurd h (by simp)
    · next hy =>
      cases h
      unfold pyStrptimeDMY at hp
      split at hp
      · split at hp
        · split at hp
          · next hcond =>
            cases hp
            simp only [Bool.and_eq_true, decide_eq_true_eq] at hcond
            simp only [not_lt] at hy
            exact ⟨by tauto, by tauto, by tauto, by tauto, by tauto, hy⟩
          · exact absurd hp (by simp)
        · exact absurd hp (by simp)
      · exact absurd hp (by simp)

lemma validate_time_valid {t : String} {hm : Nat × Nat}
    (h : validate_time t = .ok hm) : hm.1 ≤ 23 ∧ hm.2 ≤ 59 := by
  obtain ⟨h1, h2⟩ := hm
  have := (validate_time_ok_iff t h1 h2).mp h
  obtain ⟨a, b, d, e, _, _, _, _, _, hh, hmm, h23, m59⟩ := this
  exact ⟨h23, m59⟩

/-- The session invariant of the claim: a chart is present only with all
three inputs present and individually valid, and the chart and the ascendant
are stored together. -/
def SessionInv (s : Session) : Prop :=
  (s.nat_chart.isSome = true →
    s.birth_date.isSome = true ∧ s.birth_time.isSome = true ∧
    s.birth_place.isSome = true) ∧
  (s.nat_chart.isSome = true ↔ s.ascendant.isSome = true) ∧
  (∀ d, s.birth_date = some d → ValidDate d) ∧
  (∀ hm, s.birth_time = some hm → hm.1 ≤ 23 ∧ hm.2 ≤ 59)

lemma handle_message_inv (E : Ephem) (s : Session) (t : String)
    (h : SessionInv s) : SessionInv (handle_message E s t).1 := by
  obtain ⟨hchart, hasc, hvd, hvt⟩ := h
  unfold handle_message
  cases hbd : s.birth_date with
  | none =>
    dsimp only
    cases hvdt : validate_date t with
    | error e => exact ⟨hchart, hasc, hvd, hvt⟩
    | ok d =>
      dsimp only
      exact ⟨fun hc => absurd (hchart hc).1 (by simp [hbd]), hasc,
        fun d' hd' => (Option.some.inj hd') ▸ validate_date_valid hvdt, hvt⟩
  | some bd =>
    dsimp only
    cases hbt : s.birth_time with
    | none =>
      dsimp only
      cases hvtt : validate_time t with
      | error e => exact ⟨hchart, hasc, hvd, hvt⟩
      | ok hm =>
        dsimp only
        exact ⟨fun hc => absurd (hchart hc).2.1 (by simp [hbt]), hasc,
          fun d' hd' => (Option.some.inj hd') ▸ hvd bd hbd,
          fun hm' h' => (Option.some.inj h') ▸ validate_time_valid hvtt⟩
    | some hm =>
      dsimp only
      cases hbp : s.birth_place with
      | none =>
        dsimp only
        cases hgc : get_coordinates E t with
        | error e => exact ⟨hchart, hasc, hvd, hvt⟩
        | ok loc =>
          dsimp only
          cases hca : calculate_ascendant E bd.year bd.month bd.day hm.1 hm.2 loc.1 loc.2 with
          | error e =>
            dsimp only
            exact ⟨fun hc => absurd (hchart hc).2.2 (by simp [hbp]), hasc,
              fun d' hd' => (Option.some.inj hd') ▸ hvd bd hbd,
              fun hm' h' => (Option.some.inj h') ▸ hvt hm hbt⟩
          | ok asc =>
            dsimp only
            exact ⟨fun _ => ⟨by simp, by simp, by simp⟩, by simp,
              fun d' hd' => (Option.some.inj hd') ▸ hvd bd hbd,
              fun hm' h' => (Option.some.inj h') ▸ hvt hm hbt⟩
      | some _ => exact ⟨hchart, hasc, hvd, hvt⟩

lemma button_callback_inv (s : Session) (data : String)
    (h : SessionInv s) : SessionInv (button_callback s data).1 := by
  unfold button_callback
  split
  · exact ⟨by simp [emptySession], by simp [emptySession],
      by simp [emptySession], by simp [emptySession]⟩
  · split
    · split <;> exact h
    · split
      · split <;> exact h
      · exact h

/-- C3: every reachable session satisfies the invariant. -/
theorem reachable_session_invariant (s : Session) (h : Reachable s) :
    SessionInv s := by
  induction h with
  | init =>
    exact ⟨by simp [emptySession], by simp [emptySession],
      by simp [emptySession], by simp [emptySession]⟩
  | msg s' E text _ ih => exact handle_message_inv E s' text ih
  | btn s' data _ ih => exact button_callback_inv s' data ih

/-- C3 witness: the invariant holds for the fresh session. -/
theorem reachable_session_invariant_witness : SessionInv emptySession :=
  reachable_session_invariant emptySession Reachable.init

/-! ## C1: the julian days of the eleven ephemeris calls -/

/-- C1, amended: chart computation queries the body-position routine exactly
once per body (indices 0-9), every one of those ten calls receiving one
common julian day - the one derived from the raw civil birth date/time with
NO timezone conversion (line 168) - while the single house-cusp call receives
the julian day of the civil timestamp localized to the birthplace timezone
and converted to UTC (lines 211-217), i.e. the civil julian day minus the
zone's UTC offset over 1440; all eleven calls receive the same value exactly
when that offset is zero. -/
theorem chart_julian_days_amended (E : Ephem) (year month day hour minute : Nat)
    (lat lon : ℚ) (z : String) (hz : E.timezone_at lat lon = some z) :
    (calculate_planet_positions E year month day hour minute lat lon).2 =
      (List.range 10).map
        (fun i => (julday (year : Int) month day ((hour : ℚ) + (minute : ℚ) / 60), i)) ∧
    (calculate_ascendant E year month day hour minute lat lon).toOption.map
        (fun r => r.2.1) =
      some (julday (year : Int) month day ((hour : ℚ) + (minute : ℚ) / 60) -
        (E.utcoffsetMinutes z : ℚ) / 1440) ∧
    ((julday (year : Int) month day ((hour : ℚ) + (minute : ℚ) / 60) -
        (E.utcoffsetMinutes z : ℚ) / 1440 =
      julday (year : Int) month day ((hour : ℚ) + (minute : ℚ) / 60)) ↔
      E.utcoffsetMinutes z = 0) := by
  refine ⟨rfl, ?_, ?_⟩
  · unfold calculate_ascendant get_timezone
    rw [hz]
    rfl
  · constructor
    · intro h
      have h0 : (E.utcoffsetMinutes z : ℚ) / 1440 = 0 := by linarith
      have h1 : (E.utcoffsetMinutes z : ℚ) = 0 := by
        rcases div_eq_zero_iff.mp h0 with h | h
        · exact h
        · norm_num at h
      exact_mod_cast h1
    · intro h
      rw [h]
      norm_num

/-- A collaborator world placing the birth in a zone three hours east of UTC
(offset 180 minutes), as a Moscow birthplace would be. -/
def moscowWorld : Ephem :=
  ⟨fun _ _ => 0, fun _ _ _ => 0, fun _ _ => some "Europe/Moscow", fun _ => 180,
   fun _ => some (55, 37), fun _ _ => none⟩

/-- C1, counterexample: for the birth data 15.06.1990 08:45 in a zone with a
180-minute UTC offset, the julian day passed to the first body-position call
differs from the julian day passed to the house-cusp call (by 1/8 day): the
planet calls use the civil timestamp un-converted, so the claim's "every one
of these eleven calls receives the same julian-day value, namely the
localized-then-UTC one" fails. -/
theorem chart_julian_days_counterexample :
    ((calculate_planet_positions moscowWorld 1990 6 15 8 45 55 37).2.map Prod.fst).head? ≠
    (calculate_ascendant moscowWorld 1990 6 15 8 45 55 37).toOption.map
      (fun r => r.2.1) := by
  intro h
  simp [calculate_planet_positions, calculate_ascendant, get_timezone, moscowWorld,
    planetNames, Except.toOption] at h
  linarith

/-- A collaborator world whose timezone has a zero UTC offset. -/
def utcWorld : Ephem :=
  ⟨fun _ _ => 0, fun _ _ _ => 0, fun _ _ => some "UTC", fun _ => 0,
   fun _ => some (0, 0), fun _ _ => none⟩

/-- C1 witness: the amended theorem applied at a concrete zero-offset world,
giving the house-cusp call its (then coinciding) julian day. -/
theorem chart_julian_days_amended_witness :
    (calculate_ascendant utcWorld 1990 6 15 8 45 0 0).toOption.map (fun r => r.2.1) =
      some (julday ((1990 : Nat) : Int) 6 15 (((8 : Nat) : ℚ) + ((45 : Nat) : ℚ) / 60) -
        (utcWorld.utcoffsetMinutes "UTC" : ℚ) / 1440) :=
  (chart_julian_days_amended utcWorld 1990 6 15 8 45 0 0 "UTC" rfl).2.1
